import Mathlib

/-!
Verification of the VoiceLab backend (`backend/tts_engine.py`,
`backend/audio_processing.py`) against its natural-language specification.

The embedding is shallow:

* Audio samples are exact rationals (`ℚ`); the Python code computes with
  floats, which we model with exact arithmetic.
* The external DSP library primitives (`librosa.effects.pitch_shift`,
  `librosa.effects.time_stretch`, `librosa.resample`, `np.tanh`, and the
  float power `10 ** x`) are not code of this repository; they are
  abstracted as the fields of a `DSPLib` record, and theorems that need a
  property of one of them (e.g. that resampling does not raise the peak)
  take that property as an explicit hypothesis.
* The thread-safe engine state machine of `TTSEngine._load_model` /
  `initialize_async` is modelled as a small-step transition relation on
  configurations counting how many threads are before the lock-protected
  guard, inside a load attempt, and finished.  The lock-held blocks of the
  Python code are the atomic steps.
* `ensure_ready` / `generate` are modelled as pure functions of the engine
  view observed at each polling instant and of an environment record
  describing the outcomes of the external world (model load success,
  espeak-ng presence, espeak-ng return code).
-/

/-! ## Engine state machine (`backend/tts_engine.py`) -/

/-- `TTSEngine._status`: `"idle" | "loading" | "ready" | "error"`. -/
inductive Status where
  | idle
  | loading
  | ready
  | error
deriving DecidableEq, Repr

/-- `TTSEngine._backend`: `"xtts" | "espeak"` (or `None`, modelled by `Option`). -/
inductive Backend where
  | xtts
  | espeak
deriving DecidableEq, Repr

/-- The mutable fields of `TTSEngine` relevant to the state machine:
`_status`, `_backend`, `_error_msg`. -/
structure Engine where
  status : Status
  backend : Option Backend
  errMsg : Option String
deriving DecidableEq, Repr

/-- A configuration of the concurrent system: the shared engine plus the
number of `_load_model` threads that have not yet executed the guard,
that are past the guard (performing a load attempt), and that returned.
Threads are interchangeable, so counts suffice. -/
structure Config where
  eng : Engine
  nstart : ℕ
  ninload : ℕ
  ndone : ℕ
deriving DecidableEq, Repr

/-- One atomic step of the system.  Each constructor corresponds to one
lock-protected block of `TTSEngine._load_model`:

* `guardAbort` / `guardPass`: the block
  `if self._status in ("ready", "loading"): return` / `self._status = "loading"`;
* `loadSuccess`: the success path `self._tts = tts; self._status = "ready";
  self._backend = "xtts"`;
* `loadFallback`: `shutil.which("espeak-ng")` present: `self._status = "ready";
  self._backend = "espeak"; self._error_msg = str(e)`;
* `loadNoBackend`: no fallback: `self._status = "error"; self._error_msg = str(e)`.

Whether the model load succeeds and whether espeak-ng is installed are
environment nondeterminism, so all three outcomes are enabled steps. -/
inductive Step : Config → Config → Prop where
  | guardAbort (c : Config) (h : 0 < c.nstart)
      (hs : c.eng.status = .ready ∨ c.eng.status = .loading) :
      Step c { c with nstart := c.nstart - 1, ndone := c.ndone + 1 }
  | guardPass (c : Config) (h : 0 < c.nstart)
      (hs : ¬(c.eng.status = .ready ∨ c.eng.status = .loading)) :
      Step c { eng := { c.eng with status := .loading },
               nstart := c.nstart - 1, ninload := c.ninload + 1, ndone := c.ndone }
  | loadSuccess (c : Config) (h : 0 < c.ninload) :
      Step c { eng := { status := .ready, backend := some .xtts, errMsg := c.eng.errMsg },
               nstart := c.nstart, ninload := c.ninload - 1, ndone := c.ndone + 1 }
  | loadFallback (c : Config) (msg : String) (h : 0 < c.ninload) :
      Step c { eng := { status := .ready, backend := some .espeak, errMsg := some msg },
               nstart := c.nstart, ninload := c.ninload - 1, ndone := c.ndone + 1 }
  | loadNoBackend (c : Config) (msg : String) (h : 0 < c.ninload) :
      Step c { eng := { status := .error, backend := c.eng.backend, errMsg := some msg },
               nstart := c.nstart, ninload := c.ninload - 1, ndone := c.ndone + 1 }

/-- Reflexive-transitive closure of `Step`. -/
def Reachable : Config → Config → Prop := Relation.ReflTransGen Step

/-- Initial configuration: fresh engine (`__init__`: status `"idle"`, no
backend, no error message) and `n` threads about to run `_load_model`
(e.g. via `initialize_async` or `ensure_ready`). -/
def initConfig (n : ℕ) : Config :=
  { eng := { status := .idle, backend := none, errMsg := none },
    nstart := n, ninload := 0, ndone := 0 }

/-- Inductive invariant: at most one thread is ever inside a load attempt,
and the status is `"loading"` exactly while one is. -/
def EngineInv (c : Config) : Prop :=
  c.ninload ≤ 1 ∧ (c.eng.status = .loading ↔ c.ninload = 1)

/-! ## Functional model of `_load_model` / `ensure_ready` / `generate`

For the single-threaded claims (C7, C8) the same Python methods are
modelled as pure functions of the engine view and of an environment
record fixing the outcomes of the external calls. -/

/-- Outcomes of the external world during one `_load_model` call and one
`_generate_espeak` call: does `TTS(MODEL_NAME)` succeed, is `espeak-ng`
on the `PATH` (`shutil.which`), the exception text on failure, and the
`subprocess.run` return code / stderr of `espeak-ng`. -/
structure LoadEnv where
  xttsOk : Bool
  espeakPresent : Bool
  failMsg : String
  espeakRc : Int
  espeakStderr : String
deriving DecidableEq, Repr

/-- `TTSEngine._load_model`, single-call functional version: the guard
returns unchanged on `"ready"`/`"loading"`, otherwise the attempt runs and
ends in one of the three outcomes (cf. `Step`). -/
def load_model (env : LoadEnv) (e : Engine) : Engine :=
  if e.status = .ready ∨ e.status = .loading then e
  else if env.xttsOk then
    { status := .ready, backend := some .xtts, errMsg := e.errMsg }
  else if env.espeakPresent then
    { status := .ready, backend := some .espeak, errMsg := some env.failMsg }
  else
    { status := .error, backend := e.backend, errMsg := some env.failMsg }

/-- The polling loop of `ensure_ready`:
`for _ in range(600): time.sleep(1); if self._status in ("ready","error"): break`.
`obs t` is the engine view at polling instant `t`; the function returns the
instant at which the loop exits (at most `t₀ + fuel`). -/
def pollFrom (obs : ℕ → Engine) : ℕ → ℕ → ℕ
  | 0, t => t
  | fuel + 1, t =>
      if (obs (t + 1)).status = .ready ∨ (obs (t + 1)).status = .error then t + 1
      else pollFrom obs fuel (t + 1)

/-- Instant at which the 600-iteration polling loop of `ensure_ready` exits. -/
def exitIndex (obs : ℕ → Engine) : ℕ := pollFrom obs 600 0

/-- The engine view against which the two final checks of `ensure_ready` run:
after an inline `_load_model` if the status was `"idle"`, after the polling
loop if it was `"loading"`, otherwise the current view. -/
def final_view (env : LoadEnv) (obs : ℕ → Engine) (e : Engine) : Engine :=
  if e.status = .idle then load_model env e
  else if e.status = .loading then obs (exitIndex obs)
  else e

/-- The exceptions `ensure_ready` / `generate` can raise:
`RuntimeError(f"TTS engine failed to initialize: ...")`,
`RuntimeError("TTS engine not ready.")`,
`RuntimeError(f"espeak-ng error: ...")`. -/
inductive TTSError where
  | initFailed (msg : Option String)
  | notReady
  | espeakFailed (stderr : String)
deriving DecidableEq, Repr

/-- `TTSEngine.ensure_ready`: trigger an inline load from `"idle"`, poll
while `"loading"`, then raise `initFailed` when the status is `"error"`
with no backend, raise `notReady` when the status is still not
`"ready"`, and return otherwise. -/
def ensure_ready (env : LoadEnv) (obs : ℕ → Engine) (e : Engine) :
    Except TTSError Unit :=
  let v := final_view env obs e
  if v.status = .error ∧ v.backend = none then .error (.initFailed v.errMsg)
  else if v.status ≠ .ready then .error .notReady
  else .ok ()

/-! ## Audio processing (`backend/audio_processing.py`) -/

/-- `TARGET_SR = 44100`. -/
def TARGET_SR : ℕ := 44100

/-- `BIT_DEPTH = "PCM_16"`. -/
def BIT_DEPTH : String := "PCM_16"

/-- A WAV file as written by `soundfile.write(path, y, sr, subtype=...)`:
mono samples, sample rate, sample format. -/
structure WavFile where
  samples : List ℚ
  sr : ℕ
  subtype : String
deriving DecidableEq, Repr

/-- The external DSP primitives used by the repository, abstracted:

* `pitch_shift n_steps sr y` — `librosa.effects.pitch_shift(y, sr=sr, n_steps=n_steps)`;
* `time_stretch rate y` — `librosa.effects.time_stretch(y, rate=rate)`;
* `resample y orig target` — `librosa.resample(y, orig_sr=orig, target_sr=target)`;
* `tanh` — `np.tanh`, applied elementwise;
* `pow10 x` — the float power `10 ** x`. -/
structure DSPLib where
  pitch_shift : ℚ → ℕ → List ℚ → List ℚ
  time_stretch : ℚ → List ℚ → List ℚ
  resample : List ℚ → ℕ → ℕ → List ℚ
  tanh : ℚ → ℚ
  pow10 : ℚ → ℚ

/-- `MOOD_PARAMS`: mood name ↦ `(pitch_semitones_max, speed_max, gain_db_max)`. -/
def MOOD_PARAMS : String → Option (ℚ × ℚ × ℚ)
  | "normal" => some (0, 1, 0)
  | "upbeat" => some (5/2, 59/50, 3/2)
  | "angry" => some (-3/2, 28/25, 3)
  | "excited" => some (7/2, 61/50, 2)
  | _ => none

/-- `factor = (max(1, min(5, intensity)) - 1) / 4.0`. -/
def factor (intensity : ℤ) : ℚ :=
  (((max 1 (min 5 intensity) : ℤ) : ℚ) - 1) / 4

/-- `clip_threshold = 0.85 - 0.15 * factor`. -/
def clip_threshold (f : ℚ) : ℚ := 17/20 - 3/20 * f

/-- `np.max(np.abs(y))`, with the convention `0` for the empty buffer. -/
def peakOf (y : List ℚ) : ℚ := y.foldr (fun s m => max |s| m) 0

/-- Pitch-shift stage: `if abs(n_steps) > 0.01: y = librosa.effects.pitch_shift(...)`. -/
def pitch_stage (L : DSPLib) (n_steps : ℚ) (sr : ℕ) (y : List ℚ) : List ℚ :=
  if 1/100 < |n_steps| then L.pitch_shift n_steps sr y else y

/-- Time-stretch stage: `if abs(rate - 1.0) > 0.005: y = librosa.effects.time_stretch(...)`. -/
def stretch_stage (L : DSPLib) (rate : ℚ) (y : List ℚ) : List ℚ :=
  if 1/200 < |rate - 1| then L.time_stretch rate y else y

/-- Gain stage: `y = y * gain_lin`. -/
def gain_stage (gain_lin : ℚ) (y : List ℚ) : List ℚ := y.map (· * gain_lin)

/-- Conditional soft-clip distortion stage:
`if mood == "angry" and factor > 0.2: y = np.tanh(y / clip_threshold) * clip_threshold`.
`m` is the catalog-resolved mood, `f` the intensity factor. -/
def clip_stage (L : DSPLib) (m : String) (f : ℚ) (y : List ℚ) : List ℚ :=
  if m = "angry" ∧ 1/5 < f then
    y.map (fun s => L.tanh (s / clip_threshold f) * clip_threshold f)
  else y

/-- Peak-safety normalization stage:
`peak = np.max(np.abs(y)); if peak > 0.98: y = y * (0.95 / peak)`. -/
def norm_stage (y : List ℚ) : List ℚ :=
  if 49/50 < peakOf y then y.map (· * (19/20 / peakOf y)) else y

/-- Resample-and-write tail of `apply_mood`:
`if sr != TARGET_SR: y = librosa.resample(...); sr = TARGET_SR`
then `sf.write(output_path, y, sr, subtype=BIT_DEPTH)`. -/
def write_stage (L : DSPLib) (y : List ℚ) (sr : ℕ) : WavFile :=
  if sr ≠ TARGET_SR then ⟨L.resample y sr TARGET_SR, TARGET_SR, BIT_DEPTH⟩
  else ⟨y, sr, BIT_DEPTH⟩

/-- The buffer entering the conditional distortion stage of `apply_mood`:
mood resolution, factor, pitch shift, time stretch, gain. -/
def pre_clip (L : DSPLib) (y0 : List ℚ) (sr : ℕ) (mood : String) (intensity : ℤ) :
    List ℚ :=
  let m := if (MOOD_PARAMS mood).isSome then mood else "normal"
  let f := factor intensity
  let p := (MOOD_PARAMS m).getD (0, 1, 0)
  gain_stage (L.pow10 (p.2.2 * f / 20))
    (stretch_stage L (1 + (p.2.1 - 1) * f)
      (pitch_stage L (p.1 * f) sr y0))

/-- `apply_mood(input, output, mood, intensity)`: the full effect chain,
returning the written WAV file (samples, rate, subtype). -/
def apply_mood (L : DSPLib) (y0 : List ℚ) (sr : ℕ) (mood : String) (intensity : ℤ) :
    WavFile :=
  let m := if (MOOD_PARAMS mood).isSome then mood else "normal"
  write_stage L (norm_stage (clip_stage L m (factor intensity)
    (pre_clip L y0 sr mood intensity))) sr

/-- Modelled from the spec: the same chain with the conditional distortion
stage absent ("output contains no distortion stage effect"), used as the
comparison point for claim C4. -/
def apply_mood_noclip (L : DSPLib) (y0 : List ℚ) (sr : ℕ) (mood : String)
    (intensity : ℤ) : WavFile :=
  write_stage L (norm_stage (pre_clip L y0 sr mood intensity)) sr

/-- `normalize_wav(input, output)`: resample to 44100 Hz if needed,
`peak = np.max(np.abs(y)); if peak > 0: y = y * (0.9 / peak)`, write
16-bit PCM at `TARGET_SR`. -/
def normalize_wav (L : DSPLib) (y : List ℚ) (sr : ℕ) : WavFile :=
  let y1 := if sr ≠ TARGET_SR then L.resample y sr TARGET_SR else y
  let y2 := if 0 < peakOf y1 then y1.map (· * (9/10 / peakOf y1)) else y1
  ⟨y2, TARGET_SR, BIT_DEPTH⟩

/-- The normalization tail of `TTSEngine._generate_espeak`: resample to
44100 Hz if needed, `peak = np.max(np.abs(y)); if peak > 0:
y = y * (0.85 / peak)`, write 16-bit PCM at 44100 Hz. -/
def espeak_normalize (L : DSPLib) (y : List ℚ) (sr : ℕ) : WavFile :=
  let y1 := if sr ≠ 44100 then L.resample y sr 44100 else y
  let y2 := if 0 < peakOf y1 then y1.map (· * (17/20 / peakOf y1)) else y1
  ⟨y2, 44100, "PCM_16"⟩

/-- `TTSEngine.generate`: `ensure_ready`, then dispatch on the selected
backend.  The XTTS synthesis itself is an abstract external call whose
written file is the parameter `xttsOut`; `raw` is the espeak-ng raw
output (`tmp_wav`) with its sample rate. -/
def generate (env : LoadEnv) (obs : ℕ → Engine) (e : Engine) (L : DSPLib)
    (xttsOut : WavFile) (raw : List ℚ × ℕ) : Except TTSError WavFile :=
  match ensure_ready env obs e with
  | .error err => .error err
  | .ok _ =>
      if (final_view env obs e).backend = some .xtts then .ok xttsOut
      else if env.espeakRc = 0 then .ok (espeak_normalize L raw.1 raw.2)
      else .error (.espeakFailed env.espeakStderr)

/-- A concrete instantiation of the DSP primitives, used to evaluate the
theorems on closed inputs: every transformation returns its input
unchanged and `pow10` is constantly `1`. -/
def idLib : DSPLib where
  pitch_shift := fun _ _ y => y
  time_stretch := fun _ y => y
  resample := fun y _ _ => y
  tanh := fun q => q
  pow10 := fun _ => 1

/-! ## Helper lemmas on the peak and the chain stages -/

theorem peakOf_nonneg (y : List ℚ) : 0 ≤ peakOf y := by
  induction y with
  | nil => exact le_refl 0
  | cons s t ih => exact le_trans ih (le_max_right _ _)

theorem abs_le_peakOf (y : List ℚ) (s : ℚ) (hs : s ∈ y) : |s| ≤ peakOf y := by
  induction y with
  | nil => cases hs
  | cons a t ih =>
      rcases List.mem_cons.mp hs with h | h
      · subst h; exact le_max_left _ _
      · exact le_trans (ih h) (le_max_right _ _)

theorem peakOf_map_mul (y : List ℚ) (c : ℚ) (hc : 0 ≤ c) :
    peakOf (y.map (· * c)) = peakOf y * c := by
  induction y with
  | nil => simp [peakOf]
  | cons s t ih =>
      show max |s * c| (peakOf (t.map (· * c))) = max |s| (peakOf t) * c
      rw [ih, abs_mul, abs_of_nonneg hc, max_mul_of_nonneg _ _ hc]

theorem peakOf_eq_zero (y : List ℚ) (h : ∀ s ∈ y, s = 0) : peakOf y = 0 := by
  induction y with
  | nil => rfl
  | cons s t ih =>
      show max |s| (peakOf t) = 0
      rw [h s (List.mem_cons_self s t), ih fun a ha => h a (List.mem_cons_of_mem s ha)]
      simp

/-- After the peak-safety stage the peak is at most `0.98`: untouched
buffers were already below, rescaled buffers end at exactly `0.95`. -/
theorem peakOf_norm_stage_le (y : List ℚ) : peakOf (norm_stage y) ≤ 49/50 := by
  unfold norm_stage
  by_cases h : 49/50 < peakOf y
  · rw [if_pos h, peakOf_map_mul]
    · rw [mul_comm, div_mul_cancel₀]
      · norm_num
      · exact ne_of_gt (lt_trans (by norm_num) h)
    · positivity
  · rw [if_neg h]
    exact le_of_not_lt h

theorem norm_stage_of_le (y : List ℚ) (h : peakOf y ≤ 49/50) : norm_stage y = y :=
  if_neg (not_lt.mpr h)

theorem norm_stage_length (y : List ℚ) : (norm_stage y).length = y.length := by
  unfold norm_stage
  split
  · exact List.length_map y _
  · rfl

theorem list_map_mul_one (y : List ℚ) : y.map (· * 1) = y := by
  simp

/-! ## Invariants of the state machine -/

theorem engineInv_init (n : ℕ) : EngineInv (initConfig n) := by
  constructor
  · exact Nat.zero_le 1
  · constructor
    · intro h; cases h
    · intro h; cases h

theorem engineInv_step (c c' : Config) (hc : EngineInv c) (h : Step c c') :
    EngineInv c' := by
  obtain ⟨hle, hiff⟩ := hc
  cases h with
  | guardAbort h hs => exact ⟨hle, hiff⟩
  | guardPass h hs =>
      have h1 : c.ninload ≠ 1 := fun he => hs (Or.inr (hiff.mpr he))
      have h0 : c.ninload = 0 := by omega
      exact ⟨by simp [h0], by simp [h0]⟩
  | loadSuccess h =>
      refine ⟨show c.ninload - 1 ≤ 1 by omega, ?_⟩
      constructor
      · intro hcon; cases hcon
      · intro hcon
        have : c.ninload - 1 = 1 := hcon
        omega
  | loadFallback msg h =>
      refine ⟨show c.ninload - 1 ≤ 1 by omega, ?_⟩
      constructor
      · intro hcon; cases hcon
      · intro hcon
        have : c.ninload - 1 = 1 := hcon
        omega
  | loadNoBackend msg h =>
      refine ⟨show c.ninload - 1 ≤ 1 by omega, ?_⟩
      constructor
      · intro hcon; cases hcon
      · intro hcon
        have : c.ninload - 1 = 1 := hcon
        omega

theorem engineInv_reachable (n : ℕ) (c : Config) (h : Reachable (initConfig n) c) :
    EngineInv c := by
  induction h with
  | refl => exact engineInv_init n
  | tail hab hbc ih => exact engineInv_step _ _ ih hbc

/-- In a configuration satisfying the invariant whose status is `"ready"`,
no step changes the engine: the guard aborts and no load attempt is in
flight. -/
theorem ready_engine_frozen (c c' : Config) (hinv : EngineInv c)
    (hr : c.eng.status = .ready) (h : Step c c') : c'.eng = c.eng := by
  obtain ⟨hle, hiff⟩ := hinv
  have hnl : c.ninload = 0 := by
    have : c.ninload ≠ 1 := fun he => by rw [hiff.mpr he] at hr; cases hr
    omega
  cases h with
  | guardAbort h hs => rfl
  | guardPass h hs => exact absurd (Or.inl hr) hs
  | loadSuccess h => omega
  | loadFallback msg h => omega
  | loadNoBackend msg h => omega

/-- The polling loop advances at most `fuel` instants past its start. -/
theorem pollFrom_le (obs : ℕ → Engine) (fuel t : ℕ) :
    pollFrom obs fuel t ≤ t + fuel := by
  induction fuel generalizing t with
  | zero => exact Nat.le_refl t
  | succ n ih =>
      unfold pollFrom
      split
      · omega
      · exact le_trans (ih (t + 1)) (by omega)

/-- The polling loop of `ensure_ready` exits within its 600-iteration bound. -/
theorem exitIndex_le (obs : ℕ → Engine) : exitIndex obs ≤ 600 :=
  pollFrom_le obs 600 0

/-- If every observed view is still `"loading"`, the loop runs its full
fuel and exits at the last instant. -/
theorem pollFrom_loading (obs : ℕ → Engine) (hobs : ∀ t, (obs t).status = .loading)
    (fuel t : ℕ) : pollFrom obs fuel t = t + fuel := by
  induction fuel generalizing t with
  | zero => rfl
  | succ n ih =>
      unfold pollFrom
      rw [if_neg, ih (t + 1)]
      · omega
      · rw [hobs (t + 1)]
        rintro (h | h) <;> cases h

/-- The catalog resolution step maps a mood to `"angry"` iff it was
`"angry"` (unknown moods resolve to `"normal"`). -/
theorem resolved_eq_angry (mood : String) :
    (if (MOOD_PARAMS mood).isSome then mood else "normal") = "angry" ↔ mood = "angry" := by
  by_cases h : (MOOD_PARAMS mood).isSome
  · rw [if_pos h]
  · rw [if_neg h]
    constructor
    · intro hc; exact absurd hc (by decide)
    · intro hc
      subst hc
      exact absurd rfl h

/-- `10 ^ 0.0375` lies strictly between `1.08` and `1.10`: raising both
candidate bounds to the 80th power brackets `10^3 = 1000`. -/
theorem ten_rpow_bounds :
    (27/25 : ℝ) < (10 : ℝ) ^ ((3 : ℝ)/80) ∧ (10 : ℝ) ^ ((3 : ℝ)/80) < 11/10 := by
  have h10 : (0 : ℝ) ≤ 10 := by norm_num
  have hpos : 0 < (10 : ℝ) ^ ((3 : ℝ)/80) := Real.rpow_pos_of_pos (by norm_num) _
  have hpow : ((10 : ℝ) ^ ((3 : ℝ)/80)) ^ (80 : ℕ) = 1000 := by
    rw [← Real.rpow_natCast ((10 : ℝ) ^ ((3 : ℝ)/80)) 80, ← Real.rpow_mul h10]
    norm_num
  constructor
  · apply lt_of_pow_lt_pow_left₀ 80 (le_of_lt hpos)
    rw [hpow]
    norm_num
  · apply lt_of_pow_lt_pow_left₀ 80 (by norm_num : (0 : ℝ) ≤ 11/10)
    rw [hpow]
    norm_num

/-! ## Claims -/

/-- C1 counterexample: the claim "once a terminal state is reached no
further transition occurs (in particular no transition back to Loading)"
fails on the code.  The guard of `_load_model` only blocks statuses
`"ready"` and `"loading"`, so after a failed attempt reaches `"error"`
(a terminal state), a repeated `initialize()` call passes the guard and
transitions the engine back to `"loading"`.  Concrete trace from `Idle`
with two initialize calls: guard pass, failure with no fallback, then the
second call passing the guard out of `"error"`. -/
theorem claim1_counterexample :
    Reachable (initConfig 2) ⟨⟨.error, none, some "weights missing"⟩, 1, 0, 1⟩ ∧
    (⟨⟨.error, none, some "weights missing"⟩, 1, 0, 1⟩ : Config).eng.status = .error ∧
    Step (⟨⟨.error, none, some "weights missing"⟩, 1, 0, 1⟩ : Config)
      ⟨⟨.loading, none, some "weights missing"⟩, 0, 1, 1⟩ := by
  refine ⟨?_, rfl, ?_⟩
  · have s1 : Step (initConfig 2) ⟨⟨.loading, none, none⟩, 1, 1, 0⟩ :=
      Step.guardPass (initConfig 2) (by decide) (by decide)
    have s2 : Step (⟨⟨.loading, none, none⟩, 1, 1, 0⟩ : Config)
        ⟨⟨.error, none, some "weights missing"⟩, 1, 0, 1⟩ :=
      Step.loadNoBackend _ "weights missing" (by decide)
    exact Relation.ReflTransGen.tail (Relation.ReflTransGen.single s1) s2
  · exact Step.guardPass _ (by decide) (by decide)

/-- C1 (amended): in every reachable configuration at most one thread is
inside a load attempt (concurrent or repeated `initialize()` calls never
produce two simultaneous load attempts); once `Ready` is reached the
engine never changes again; and from `Error` the only possible change is
a repeated `initialize()` call re-entering `Loading` — `Error` is
terminal for the attempt that produced it but not absorbing. -/
theorem claim1_single_attempt_ready_absorbing (n : ℕ) (c : Config)
    (h : Reachable (initConfig n) c) :
    c.ninload ≤ 1 ∧
    (c.eng.status = .ready → ∀ c', Step c c' → c'.eng = c.eng) ∧
    (c.eng.status = .error → ∀ c', Step c c' →
      c'.eng = c.eng ∨ c'.eng = { c.eng with status := .loading }) := by
  have hinv := engineInv_reachable n c h
  refine ⟨hinv.1, fun hr c' hs => ready_engine_frozen c c' hinv hr hs, ?_⟩
  intro he c' hs
  obtain ⟨hle, hiff⟩ := hinv
  have hnl : c.ninload = 0 := by
    have : c.ninload ≠ 1 := fun h1 => by rw [hiff.mpr h1] at he; cases he
    omega
  cases hs with
  | guardAbort h hs =>
      rcases hs with hs | hs <;> rw [he] at hs <;> cases hs
  | guardPass h hs => exact Or.inr rfl
  | loadSuccess h => omega
  | loadFallback msg h => omega
  | loadNoBackend msg h => omega

theorem claim1_witness :
    (initConfig 3).ninload ≤ 1 ∧
    ((initConfig 3).eng.status = .ready → ∀ c', Step (initConfig 3) c' →
      c'.eng = (initConfig 3).eng) ∧
    ((initConfig 3).eng.status = .error → ∀ c', Step (initConfig 3) c' →
      c'.eng = (initConfig 3).eng ∨
      c'.eng = { (initConfig 3).eng with status := .loading }) :=
  claim1_single_attempt_ready_absorbing 3 (initConfig 3) Relation.ReflTransGen.refl

/-- C2: for every input buffer, mood and intensity, the written buffer of
`apply_mood` has peak magnitude at most `0.98`, and the normalization
stage computes `peak = max |sample|` and rescales by `0.95 / peak`
exactly when `peak > 0.98`.  The final resampling is the external
`librosa.resample`; the hypothesis states the amplitude contract assumed
of it (a resampler does not raise the peak). -/
theorem claim2_peak_invariant (L : DSPLib)
    (hres : ∀ y osr tsr, peakOf (L.resample y osr tsr) ≤ peakOf y)
    (y0 : List ℚ) (sr : ℕ) (mood : String) (intensity : ℤ) :
    peakOf (apply_mood L y0 sr mood intensity).samples ≤ 49/50 ∧
    (∀ z, peakOf z = z.foldr (fun s m => max |s| m) 0 ∧
      norm_stage z = if 49/50 < peakOf z then z.map (· * (19/20 / peakOf z)) else z) := by
  refine ⟨?_, fun z => ⟨rfl, rfl⟩⟩
  unfold apply_mood write_stage
  dsimp only
  split
  · exact le_trans (hres _ _ _) (peakOf_norm_stage_le _)
  · exact peakOf_norm_stage_le _

theorem claim2_witness :
    (∀ y osr tsr, peakOf (idLib.resample y osr tsr) ≤ peakOf y) ∧
    peakOf (apply_mood idLib [1, -3] 22050 "angry" 4).samples ≤ 49/50 :=
  ⟨fun _ _ _ => le_refl _,
   (claim2_peak_invariant idLib (fun _ _ _ => le_refl _) [1, -3] 22050 "angry" 4).1⟩

/-- C3 counterexample: the claim "for mood=normal the output samples are
unchanged from the input except for resampling and format conversion"
fails: the peak-safety normalization stage still runs.  For the input
buffer `[2]` at 44100 Hz (no resampling happens) the chain rescales the
sample to `0.95`, so the output differs from the input. -/
theorem claim3_counterexample :
    (apply_mood idLib [2] 44100 "normal" 3).samples = [19/20] ∧
    (19/20 : ℚ) ≠ 2 := by
  constructor
  · norm_num [apply_mood, pre_clip, idLib, MOOD_PARAMS, factor, pitch_stage, stretch_stage,
      gain_stage, clip_stage, norm_stage, peakOf, write_stage, TARGET_SR, BIT_DEPTH,
      (by decide : ("normal" : String) ≠ "angry")]
  · norm_num

/-- C3 (amended): for mood="normal" and every intensity the derived
parameters vanish (`pitchSteps = 0`, `speedRate = 1`, and the gain is
`10^0 = 1`), so the chain is the identity up to the peak-safety stage
followed by resampling/format conversion: the output equals
`write_stage` of `norm_stage` of the input, `norm_stage` is the identity
whenever the input peak is at most `0.98`, and the buffer length never
changes before resampling (no time-stretch). -/
theorem claim3_normal_amended (L : DSPLib) (hpow : L.pow10 0 = 1)
    (y0 : List ℚ) (sr : ℕ) (intensity : ℤ) :
    ((MOOD_PARAMS "normal").getD (0, 1, 0)).1 * factor intensity = 0 ∧
    1 + (((MOOD_PARAMS "normal").getD (0, 1, 0)).2.1 - 1) * factor intensity = 1 ∧
    apply_mood L y0 sr "normal" intensity = write_stage L (norm_stage y0) sr ∧
    (peakOf y0 ≤ 49/50 → norm_stage y0 = y0) ∧
    (norm_stage y0).length = y0.length ∧
    (sr = TARGET_SR → (apply_mood L y0 sr "normal" intensity).samples = norm_stage y0) := by
  have hpre : pre_clip L y0 sr "normal" intensity = y0 := by
    unfold pre_clip pitch_stage stretch_stage gain_stage
    norm_num [MOOD_PARAMS, hpow]
  have hchain : apply_mood L y0 sr "normal" intensity = write_stage L (norm_stage y0) sr := by
    unfold apply_mood clip_stage
    norm_num [MOOD_PARAMS, hpre, (by decide : ("normal" : String) ≠ "angry")]
  refine ⟨by norm_num [MOOD_PARAMS], by norm_num [MOOD_PARAMS], hchain,
    norm_stage_of_le y0, norm_stage_length y0, ?_⟩
  intro hsr
  rw [hchain]
  unfold write_stage
  rw [if_neg (by rw [hsr]; exact fun hc => hc rfl)]

theorem claim3_witness :
    idLib.pow10 0 = 1 ∧
    apply_mood idLib [1/2] 44100 "normal" 2 = write_stage idLib (norm_stage [1/2]) 44100 :=
  ⟨rfl, (claim3_normal_amended idLib rfl [1/2] 44100 2).2.2.1⟩

/-- C4: the soft-clip distortion stage runs iff mood = "angry" and
factor > 0.2.  When it does not run the output equals the chain with the
distortion stage removed; when it runs, the post-gain buffer is mapped
through `s ↦ tanh(s / clip_threshold) * clip_threshold` with
`clip_threshold = 0.85 - 0.15 * factor` before normalization. -/
theorem claim4_softclip_iff (L : DSPLib) (y0 : List ℚ) (sr : ℕ) (mood : String)
    (intensity : ℤ) :
    (¬(mood = "angry" ∧ 1/5 < factor intensity) →
      apply_mood L y0 sr mood intensity = apply_mood_noclip L y0 sr mood intensity) ∧
    (mood = "angry" ∧ 1/5 < factor intensity →
      apply_mood L y0 sr mood intensity =
        write_stage L (norm_stage ((pre_clip L y0 sr mood intensity).map
          (fun s => L.tanh (s / clip_threshold (factor intensity)) *
            clip_threshold (factor intensity)))) sr) ∧
    clip_threshold (factor intensity) = 17/20 - 3/20 * factor intensity := by
  refine ⟨?_, ?_, rfl⟩
  · intro hn
    have hcond : ¬((if (MOOD_PARAMS mood).isSome then mood else "normal") = "angry" ∧
        1/5 < factor intensity) := by
      rintro ⟨hm, hf⟩
      exact hn ⟨(resolved_eq_angry mood).mp hm, hf⟩
    simp only [apply_mood, apply_mood_noclip, clip_stage, if_neg hcond]
  · rintro ⟨hm, hf⟩
    have hcond : (if (MOOD_PARAMS mood).isSome then mood else "normal") = "angry" ∧
        1/5 < factor intensity := ⟨(resolved_eq_angry mood).mpr hm, hf⟩
    simp only [apply_mood, clip_stage, if_pos hcond]

theorem claim4_witness :
    apply_mood idLib [3] 44100 "angry" 5 =
      write_stage idLib (norm_stage ((pre_clip idLib [3] 44100 "angry" 5).map
        (fun s => idLib.tanh (s / clip_threshold (factor 5)) *
          clip_threshold (factor 5)))) 44100 :=
  (claim4_softclip_iff idLib [3] 44100 "angry" 5).2.1 ⟨rfl, by norm_num [factor]⟩

/-- C5: for every integer intensity, `factor = (clamp(intensity,1,5)-1)/4`
lies in `[0,1]` and is monotone in the intensity; for intensity 5 the
factor is exactly 1 and the angry clip threshold is `0.85 - 0.15 = 0.70`. -/
theorem claim5_factor_bounds :
    (∀ i : ℤ, 0 ≤ factor i ∧ factor i ≤ 1) ∧
    (∀ i j : ℤ, i ≤ j → factor i ≤ factor j) ∧
    factor 5 = 1 ∧ clip_threshold (factor 5) = 7/10 := by
  refine ⟨?_, ?_, by norm_num [factor], by norm_num [factor, clip_threshold]⟩
  · intro i
    have h1 : (1 : ℤ) ≤ max 1 (min 5 i) := le_max_left _ _
    have h5 : max 1 (min 5 i) ≤ 5 := max_le (by norm_num) (min_le_left _ _)
    have h1q : (1 : ℚ) ≤ ((max 1 (min 5 i) : ℤ) : ℚ) := by exact_mod_cast h1
    have h5q : ((max 1 (min 5 i) : ℤ) : ℚ) ≤ 5 := by exact_mod_cast h5
    unfold factor
    constructor
    · apply div_nonneg _ (by norm_num)
      linarith
    · rw [div_le_one (by norm_num)]
      linarith
  · intro i j hij
    have hmono : max 1 (min 5 i) ≤ max 1 (min 5 j) :=
      max_le_max (le_refl 1) (min_le_min (le_refl 5) hij)
    have hq : ((max 1 (min 5 i) : ℤ) : ℚ) ≤ ((max 1 (min 5 j) : ℤ) : ℚ) := by
      exact_mod_cast hmono
    unfold factor
    linarith

theorem claim5_witness :
    (0 ≤ factor 2 ∧ factor 2 ≤ 1) ∧ factor 2 ≤ factor 4 :=
  ⟨claim5_factor_bounds.1 2, claim5_factor_bounds.2.1 2 4 (by norm_num)⟩

/-- C6 counterexample: the claim states gainLinear ≈ 1.19 for
mood="upbeat", intensity=3.  The formula gives
`10^(gainMax * factor / 20) = 10^(1.5 * 0.5 / 20) = 10^0.0375 < 1.10`,
so the gain is nowhere near 1.19 (1.19 corresponds to factor = 1, i.e.
`10^(1.5/20)`). -/
theorem claim6_counterexample :
    (10 : ℝ) ^ ((((MOOD_PARAMS "upbeat").getD (0, 1, 0)).2.2 * factor 3 / 20 : ℚ) : ℝ)
      < 11/10 ∧ (11/10 : ℝ) < 119/100 := by
  have hup : MOOD_PARAMS "upbeat" = some (5/2, 59/50, 3/2) := rfl
  have hq : (((MOOD_PARAMS "upbeat").getD (0, 1, 0)).2.2 * factor 3 / 20 : ℚ) = 3/80 := by
    rw [hup]
    norm_num [factor]
  rw [hq]
  have hc : (((3 : ℚ)/80 : ℚ) : ℝ) = (3 : ℝ)/80 := by push_cast; ring
  rw [hc]
  exact ⟨ten_rpow_bounds.2, by norm_num⟩

/-- C6 (amended): for mood="upbeat" and intensity=3, factor = 0.5,
pitchSteps = 2.5 * 0.5 = 1.25 semitones, speedRate = 1 + 0.18 * 0.5 = 1.09,
and gainLinear = 10^(1.5 * 0.5 / 20) = 10^0.0375 lies strictly between
1.08 and 1.10 (≈ 1.09, not ≈ 1.19 as the spec scenario says). -/
theorem claim6_upbeat_params_amended :
    factor 3 = 1/2 ∧
    ((MOOD_PARAMS "upbeat").getD (0, 1, 0)).1 * factor 3 = 5/4 ∧
    1 + (((MOOD_PARAMS "upbeat").getD (0, 1, 0)).2.1 - 1) * factor 3 = 109/100 ∧
    (27/25 : ℝ) <
      (10 : ℝ) ^ ((((MOOD_PARAMS "upbeat").getD (0, 1, 0)).2.2 * factor 3 / 20 : ℚ) : ℝ) ∧
    (10 : ℝ) ^ ((((MOOD_PARAMS "upbeat").getD (0, 1, 0)).2.2 * factor 3 / 20 : ℚ) : ℝ)
      < 11/10 := by
  have hup : MOOD_PARAMS "upbeat" = some (5/2, 59/50, 3/2) := rfl
  have hq : (((MOOD_PARAMS "upbeat").getD (0, 1, 0)).2.2 * factor 3 / 20 : ℚ) = 3/80 := by
    rw [hup]
    norm_num [factor]
  have hc : (((3 : ℚ)/80 : ℚ) : ℝ) = (3 : ℝ)/80 := by push_cast; ring
  refine ⟨by norm_num [factor], ?_, ?_, ?_, ?_⟩
  · rw [hup]; norm_num [factor]
  · rw [hup]; norm_num [factor]
  · rw [hq, hc]; exact ten_rpow_bounds.1
  · rw [hq, hc]; exact ten_rpow_bounds.2

/-- The espeak fallback normalization caps the written peak at `0.85`:
buffers with positive peak are rescaled to exactly `0.85`, silent buffers
stay at peak `0`. -/
theorem peakOf_espeak_normalize_le (L : DSPLib) (y : List ℚ) (sr : ℕ) :
    peakOf (espeak_normalize L y sr).samples ≤ 17/20 := by
  unfold espeak_normalize
  dsimp only
  by_cases h : 0 < peakOf (if sr ≠ 44100 then L.resample y sr 44100 else y)
  · rw [if_pos h, peakOf_map_mul _ _ (by positivity)]
    rw [mul_comm, div_mul_cancel₀ _ (ne_of_gt h)]
  · rw [if_neg h]
    have h0 := peakOf_nonneg (if sr ≠ 44100 then L.resample y sr 44100 else y)
    have : peakOf (if sr ≠ 44100 then L.resample y sr 44100 else y) = 0 :=
      le_antisymm (not_lt.mp h) h0
    rw [this]
    norm_num

/-- C7: a failed primary load with the fallback tool present steps the
engine from its single in-flight load attempt to `Ready(espeak)` while
recording the failure message; in that state `generate` succeeds through
the espeak path (when espeak-ng itself exits with code 0), and the
espeak output is written at 44100 Hz, 16-bit PCM, with peak at most
`0.85`. -/
theorem claim7_fallback_path (c : Config) (msg : String) (h : 0 < c.ninload)
    (env : LoadEnv) (obs : ℕ → Engine) (L : DSPLib) (xttsOut : WavFile)
    (raw : List ℚ × ℕ) (hrc : env.espeakRc = 0) :
    Step c ⟨⟨.ready, some .espeak, some msg⟩, c.nstart, c.ninload - 1, c.ndone + 1⟩ ∧
    generate env obs ⟨.ready, some .espeak, some msg⟩ L xttsOut raw =
      .ok (espeak_normalize L raw.1 raw.2) ∧
    (espeak_normalize L raw.1 raw.2).sr = 44100 ∧
    (espeak_normalize L raw.1 raw.2).subtype = "PCM_16" ∧
    peakOf (espeak_normalize L raw.1 raw.2).samples ≤ 17/20 := by
  refine ⟨Step.loadFallback c msg h, ?_, rfl, rfl, peakOf_espeak_normalize_le L raw.1 raw.2⟩
  have hv : final_view env obs ⟨.ready, some .espeak, some msg⟩ =
      ⟨.ready, some .espeak, some msg⟩ := rfl
  have her : ensure_ready env obs ⟨.ready, some .espeak, some msg⟩ = .ok () := by
    unfold ensure_ready
    rw [hv]
    rw [if_neg (by rintro ⟨hc, -⟩; cases hc), if_neg (by intro hc; exact hc rfl)]
  unfold generate
  rw [her, hv]
  rw [if_neg (by intro hc; cases hc), if_pos hrc]

theorem claim7_witness :
    Step (⟨⟨.loading, none, none⟩, 0, 1, 0⟩ : Config)
      ⟨⟨.ready, some .espeak, some "no weights"⟩, 0, 0, 1⟩ ∧
    generate ⟨false, true, "no weights", 0, ""⟩ (fun _ => ⟨.loading, none, none⟩)
      ⟨.ready, some .espeak, some "no weights"⟩ idLib ⟨[], 44100, "PCM_16"⟩
      ([1, 0], 22050) = .ok (espeak_normalize idLib [1, 0] 22050) ∧
    peakOf (espeak_normalize idLib [1, 0] 22050).samples ≤ 17/20 := by
  have h := claim7_fallback_path ⟨⟨.loading, none, none⟩, 0, 1, 0⟩ "no weights"
    (by decide) ⟨false, true, "no weights", 0, ""⟩ (fun _ => ⟨.loading, none, none⟩)
    idLib ⟨[], 44100, "PCM_16"⟩ ([1, 0], 22050) rfl
  exact ⟨h.1, h.2.1, h.2.2.2.2⟩

/-- C8: `ensure_ready` raises the permanent initialization error exactly
when the view it finally checks is `Error` with no fallback backend ever
selected; the polling loop is bounded by 600 one-second polls (~10
minutes); if every observed view is still `Loading` the call fails with
the "not ready" error instead of hanging; and in the `Error`-without-
fallback state every `generate` (synthesize) call fails with the
initialization error. -/
theorem claim8_ensure_ready_taxonomy (env : LoadEnv) (obs : ℕ → Engine) (e : Engine)
    (L : DSPLib) (xttsOut : WavFile) (raw : List ℚ × ℕ) :
    (ensure_ready env obs e = .error (.initFailed (final_view env obs e).errMsg) ↔
      (final_view env obs e).status = .error ∧ (final_view env obs e).backend = none) ∧
    exitIndex obs ≤ 600 ∧
    (e.status = .loading → (∀ t, (obs t).status = .loading) →
      ensure_ready env obs e = .error .notReady) ∧
    (e.status = .error → e.backend = none →
      generate env obs e L xttsOut raw = .error (.initFailed e.errMsg)) := by
  refine ⟨?_, exitIndex_le obs, ?_, ?_⟩
  · unfold ensure_ready
    by_cases hc : (final_view env obs e).status = .error ∧ (final_view env obs e).backend = none
    · rw [if_pos hc]
      exact ⟨fun _ => hc, fun _ => rfl⟩
    · rw [if_neg hc]
      constructor
      · intro h
        split at h
        · simp at h
        · simp at h
      · intro h
        exact absurd h hc
  · intro hl hobs
    have hv : final_view env obs e = obs (exitIndex obs) := by
      unfold final_view
      rw [if_neg (by rw [hl]; intro hc; cases hc), if_pos hl]
    have h1 : ¬((obs (exitIndex obs)).status = .error ∧
        (obs (exitIndex obs)).backend = none) := by
      rw [hobs]
      rintro ⟨hc, -⟩
      cases hc
    have h2 : (obs (exitIndex obs)).status ≠ .ready := by
      rw [hobs]
      intro hc
      cases hc
    unfold ensure_ready
    rw [hv, if_neg h1, if_pos h2]
  · intro he hb
    have hv : final_view env obs e = e := by
      unfold final_view
      rw [if_neg (by rw [he]; intro hc; cases hc), if_neg (by rw [he]; intro hc; cases hc)]
    have her : ensure_ready env obs e = .error (.initFailed e.errMsg) := by
      unfold ensure_ready
      rw [hv, if_pos ⟨he, hb⟩]
    unfold generate
    rw [her]

theorem claim8_witness :
    generate ⟨false, false, "m", 0, ""⟩ (fun _ => ⟨.loading, none, none⟩)
      ⟨.error, none, some "boom"⟩ idLib ⟨[], 44100, "PCM_16"⟩ ([], 22050) =
      .error (.initFailed (some "boom")) :=
  (claim8_ensure_ready_taxonomy ⟨false, false, "m", 0, ""⟩
    (fun _ => ⟨.loading, none, none⟩) ⟨.error, none, some "boom"⟩
    idLib ⟨[], 44100, "PCM_16"⟩ ([], 22050)).2.2.2 rfl rfl

/-- C9: every buffer written by the effect chain and by the
reference-import normalization has sample rate exactly 44100 Hz and
16-bit signed PCM format, whatever the rate of the input. -/
theorem claim9_output_format (L : DSPLib) (y : List ℚ) (sr : ℕ) (mood : String)
    (intensity : ℤ) :
    (apply_mood L y sr mood intensity).sr = TARGET_SR ∧
    (apply_mood L y sr mood intensity).subtype = BIT_DEPTH ∧
    (normalize_wav L y sr).sr = TARGET_SR ∧
    (normalize_wav L y sr).subtype = BIT_DEPTH ∧
    TARGET_SR = 44100 ∧ BIT_DEPTH = "PCM_16" := by
  refine ⟨?_, ?_, rfl, rfl, rfl, rfl⟩
  · unfold apply_mood write_stage
    dsimp only
    split
    · rfl
    · next hns => exact not_ne_iff.mp hns
  · unfold apply_mood write_stage
    dsimp only
    split
    · rfl
    · rfl

/-- C10: on a silent buffer the `0.9` (reference import) and `0.85`
(fallback output) peak-target rescalings are skipped — they only run when
`peak > 0`, so neither path divides by the zero peak — and the silent
buffer is still written out, unscaled, as 44100 Hz 16-bit PCM.  The
second hypothesis is the contract that the external resampler maps
silence to silence. -/
theorem claim10_silent_input (L : DSPLib) (y : List ℚ) (sr : ℕ)
    (hz : ∀ s ∈ y, s = 0)
    (hres : ∀ s ∈ L.resample y sr 44100, s = 0) :
    normalize_wav L y sr =
      ⟨if sr ≠ 44100 then L.resample y sr 44100 else y, 44100, "PCM_16"⟩ ∧
    espeak_normalize L y sr =
      ⟨if sr ≠ 44100 then L.resample y sr 44100 else y, 44100, "PCM_16"⟩ := by
  have hz1 : ∀ s ∈ (if sr ≠ 44100 then L.resample y sr 44100 else y), s = 0 := by
    split
    · exact hres
    · exact hz
  have hp : peakOf (if sr ≠ 44100 then L.resample y sr 44100 else y) = 0 :=
    peakOf_eq_zero _ hz1
  constructor
  · unfold normalize_wav TARGET_SR BIT_DEPTH
    dsimp only
    rw [if_neg (by rw [hp]; norm_num)]
  · unfold espeak_normalize
    dsimp only
    rw [if_neg (by rw [hp]; norm_num)]

theorem claim10_witness :
    (∀ s ∈ [(0 : ℚ), 0], s = 0) ∧
    normalize_wav idLib [0, 0] 22050 = ⟨[0, 0], 44100, "PCM_16"⟩ ∧
    espeak_normalize idLib [0, 0] 22050 = ⟨[0, 0], 44100, "PCM_16"⟩ := by
  have hz : ∀ s ∈ [(0 : ℚ), 0], s = 0 := by
    intro s hs
    rcases List.mem_cons.mp hs with h | h
    · exact h
    · rcases List.mem_cons.mp h with h2 | h2
      · exact h2
      · cases h2
  have h := claim10_silent_input idLib [0, 0] 22050 hz hz
  refine ⟨hz, ?_, ?_⟩
  · have := h.1
    rwa [if_pos (by norm_num)] at this
  · have := h.2
    rwa [if_pos (by norm_num)] at this
